import Mathlib

/-!
Verification of the Prisoner's Dilemma experiment core of the
umdad-platform repository.

The embedded code comes from `src/pd_demo/pd_game.py` (strategies, the
inline payoff computation and the match loop of `PDGame.play_match`, and
the response sanitisation of `PDGame.get_llm_move`).  The session state
machine of `app/experiments/prisoners_dilemma.py` (`process_decision`,
`calculate_payoff`) is not present under `src/`; only its tests are.  Those
parts are modelled from the specification, and each such definition says so
in its doc comment.
-/

/-- A decision in one round: `cooperate` or `defect`. -/
inductive Decision where
  | cooperate
  | defect
deriving DecidableEq, Repr

open Decision

/-- String form of a decision, as the Python code spells it. -/
def Decision.str : Decision → String
  | cooperate => "cooperate"
  | defect => "defect"

/-- Parse a raw decision string into the enumerated set, `none` otherwise. -/
def parseDecision (s : String) : Option Decision :=
  if s = "cooperate" then some cooperate
  else if s = "defect" then some defect
  else none

/-- The inline payoff computation of `PDGame.play_match`
(`src/pd_demo/pd_game.py` lines 148-158): the if/elif chain adding scores
for the pair (llm move, strategy move).  Returned as the pair of score
increments (llm, strategy). -/
def payoff (llm strat : Decision) : Int × Int :=
  if llm = cooperate ∧ strat = cooperate then (3, 3)
  else if llm = defect ∧ strat = defect then (1, 1)
  else if llm = cooperate then (0, 5)
  else (5, 0)

/-- `TitForTat.get_move` (`src/pd_demo/pd_game.py` lines 22-25): the empty
history yields `cooperate`, otherwise `history[-1]`, the caller passing the
participant-move projection of the match history. -/
def titForTatMove (history : List Decision) : Decision :=
  match history.getLast? with
  | none => cooperate
  | some d => d

/-- `AlwaysDefect.get_move`. -/
def alwaysDefectMove (_ : List Decision) : Decision := defect

/-- `AlwaysCooperate.get_move`. -/
def alwaysCooperateMove (_ : List Decision) : Decision := cooperate

/-- The `STRATEGIES` registry of `src/pd_demo/pd_game.py` lines 43-47. -/
def STRATEGIES : List (String × (List Decision → Decision)) :=
  [("TitForTat", titForTatMove),
   ("AlwaysDefect", alwaysDefectMove),
   ("AlwaysCooperate", alwaysCooperateMove)]

/-- `STRATEGIES.get(strategy_name)` in `play_match`. -/
def lookupStrategy (name : String) : Option (List Decision → Decision) :=
  (STRATEGIES.find? (fun p => p.1 == name)).map Prod.snd

/-- One iteration of the `play_match` loop: the llm policy sees the full
history of (llm, strategy) pairs, the strategy sees `[h[0] for h in
history]`, the scores grow by the payoff, the pair is appended. -/
def stepRound (llmPolicy : List (Decision × Decision) → Decision)
    (stratMove : List Decision → Decision)
    (st : List (Decision × Decision) × Int × Int) :
    List (Decision × Decision) × Int × Int :=
  let llmMove := llmPolicy st.1
  let stratM := stratMove (st.1.map Prod.fst)
  let p := payoff llmMove stratM
  (st.1 ++ [(llmMove, stratM)], st.2.1 + p.1, st.2.2 + p.2)

/-- `n` iterations of the `play_match` loop from the empty history and zero
scores. -/
def runRounds (llmPolicy : List (Decision × Decision) → Decision)
    (stratMove : List Decision → Decision) :
    Nat → List (Decision × Decision) × Int × Int
  | 0 => ([], 0, 0)
  | n + 1 => stepRound llmPolicy stratMove (runRounds llmPolicy stratMove n)

/-- The dictionary returned by `play_match`. -/
structure MatchResult where
  llmScore : Int
  stratScore : Int
  history : List (Decision × Decision)
  strategy : String
  turns : Int
deriving DecidableEq, Repr

/-- `PDGame.play_match` (`src/pd_demo/pd_game.py` lines 118-168): resolve
the strategy name (a missing name raises before any round), then run
`range(turns)` iterations — empty when `turns ≤ 0` — and return scores and
history.  The llm moves are supplied by `llmPolicy`, abstracting
`get_llm_move`. -/
def play_match (llmPolicy : List (Decision × Decision) → Decision)
    (strategy_name : String) (turns : Int) : Except String MatchResult :=
  match lookupStrategy strategy_name with
  | none => .error "Error creating strategy: Strategy not found"
  | some stratMove =>
    let r := runRounds llmPolicy stratMove turns.toNat
    .ok { llmScore := r.2.1, stratScore := r.2.2, history := r.1,
          strategy := strategy_name, turns := turns }

/-- The whitespace characters removed by Python `str.strip()`. -/
def isSpaceChar (c : Char) : Bool :=
  c = ' ' || c = '\t' || c = '\n' || c = '\r' || c = '\x0b' || c = '\x0c'

/-- `content.strip().lower()` of `get_llm_move`: drop whitespace from both
ends, then lowercase. -/
def strip_lower (s : String) : String :=
  (((s.toList.dropWhile isSpaceChar).reverse.dropWhile
      isSpaceChar).reverse.map Char.toLower).asString

/-- `PDGame.get_llm_move` response handling (`src/pd_demo/pd_game.py` lines
97-116): on an API exception the move is `cooperate`; otherwise the
response text is stripped and lowercased and any value outside the two
valid decisions becomes `cooperate`. -/
def get_llm_move (response : Except String String) : String :=
  match response with
  | .error _ => "cooperate"
  | .ok content =>
    let move := strip_lower content
    if move ∉ ["cooperate", "defect"] then "cooperate" else move

/-! ### The session state machine

`app/experiments/prisoners_dilemma.py` (`process_decision`,
`calculate_payoff`) is not under `src/`; only `src/tests/test_prisoners_dilemma.py`
exercises it.  The definitions below are modelled from the specification
(sections 3, 4.3, 4.4) and checked against those tests. -/

/-- The error taxonomy of spec section 7. -/
inductive PDError where
  | InvalidDecision
  | SessionAlreadyComplete
  | UnknownStrategy
  | AlreadyStarted
deriving DecidableEq, Repr

/-- Modelled from the spec: the configurable payoff matrix of section 3,
one score pair per ordered decision pair, all four present. -/
structure PDMatrix where
  cc : Int × Int
  cd : Int × Int
  dc : Int × Int
  dd : Int × Int
deriving DecidableEq, Repr

/-- Matrix lookup at an ordered (participant, opponent) pair. -/
def PDMatrix.lookup (m : PDMatrix) : Decision → Decision → Int × Int
  | cooperate, cooperate => m.cc
  | cooperate, defect => m.cd
  | defect, cooperate => m.dc
  | defect, defect => m.dd

/-- The literal matrix configured in the tests: CC→(3,3), CD→(0,5),
DC→(5,0), DD→(1,1). -/
def default_matrix : PDMatrix :=
  { cc := (3, 3), cd := (0, 5), dc := (5, 0), dd := (1, 1) }

/-- Modelled from the spec: the `tit_for_tat` opponent policy of the
missing `app/experiments/prisoners_dilemma.py` — an empty participant
history yields the configured `opponent_initial`, otherwise the
participant's immediately preceding decision (spec sections 4.2, 4.3). -/
def tit_for_tat (opponent_initial : Decision)
    (player_history : List Decision) : Decision :=
  match player_history.getLast? with
  | none => opponent_initial
  | some d => d

/-- Modelled from the spec: a round record of the missing session module
(section 3): round number, both decisions, both scores. -/
structure RoundRecord where
  round : Nat
  player_decision : Decision
  opponent_decision : Decision
  player_score : Int
  opponent_score : Int
deriving DecidableEq, Repr

/-- Modelled from the spec: the mutable session state of section 3 —
current 1-indexed round number, append-only round history, completion
flag — plus a count of `persist_result` calls made for this session, to
express the persist-exactly-once property. -/
structure SessionState where
  round : Nat
  rounds_data : List RoundRecord
  completed : Bool
  persist_count : Nat
deriving DecidableEq, Repr

/-- The state a freshly started session is initialized to (spec section
4.4: round counter 1, empty history). -/
def initial_session : SessionState :=
  { round := 1, rounds_data := [], completed := false, persist_count := 0 }

/-- Modelled from the spec: `start_session` resolves the configured
opponent strategy identifier at session-start time; an unknown identifier
fails with `UnknownStrategy` before any round (spec sections 4.2, 4.4). -/
def start_session (opponent_strategy : String) : Except PDError SessionState :=
  match lookupStrategy opponent_strategy with
  | none => .error PDError.UnknownStrategy
  | some _ => .ok initial_session

/-- Modelled from the spec: `submit_decision` / `process_decision` of the
missing session module (spec sections 4.3, 4.4).  Rejects a completed
session with `SessionAlreadyComplete`; rejects a decision outside the
enumerated set with `InvalidDecision`; otherwise derives the opponent
decision from the participant-decision history via the resolved policy,
computes the payoff, appends the round record, and either advances the
round counter or — on the terminal round — flips the completion flag and
persists the result exactly once.  Returns the (possibly unchanged) state
with the outcome. -/
def submit_decision (total_rounds : Nat) (matrix : PDMatrix)
    (policy : List Decision → Decision) (st : SessionState)
    (decision : String) : SessionState × Except PDError RoundRecord :=
  if st.completed then (st, .error PDError.SessionAlreadyComplete)
  else
    match parseDecision decision with
    | none => (st, .error PDError.InvalidDecision)
    | some pd =>
      let od := policy (st.rounds_data.map RoundRecord.player_decision)
      let p := matrix.lookup pd od
      let record : RoundRecord :=
        { round := st.round, player_decision := pd, opponent_decision := od,
          player_score := p.1, opponent_score := p.2 }
      let hist := st.rounds_data ++ [record]
      if st.round = total_rounds then
        ({ st with rounds_data := hist, completed := true,
                   persist_count := st.persist_count + 1 }, .ok record)
      else
        ({ st with rounds_data := hist, round := st.round + 1 }, .ok record)

/-- Run a sequence of decision submissions through the session machine. -/
def run_session (total_rounds : Nat) (matrix : PDMatrix)
    (policy : List Decision → Decision) :
    List String → SessionState → SessionState
  | [], st => st
  | d :: ds, st =>
    run_session total_rounds matrix policy ds
      (submit_decision total_rounds matrix policy st d).1

/-- Aggregate participant score over the session history (the Result
Record aggregate of spec section 3). -/
def player_total (st : SessionState) : Int :=
  (st.rounds_data.map RoundRecord.player_score).sum

/-- Aggregate opponent score over the session history. -/
def opponent_total (st : SessionState) : Int :=
  (st.rounds_data.map RoundRecord.opponent_score).sum

/-! ### Concrete fixtures for the scenario claims -/

/-- The participant decisions of the 3-round scenario of spec section 8. -/
def scripted_moves : List Decision := [cooperate, defect, cooperate]

/-- An llm policy playing the scripted scenario moves in order (the move
for round `k+1` is the entry at index `k`, the history length). -/
def scripted_policy (h : List (Decision × Decision)) : Decision :=
  scripted_moves.getD h.length cooperate

/-- The session state after the 3-round scenario run. -/
def scenario_run : SessionState :=
  run_session 3 default_matrix (tit_for_tat cooperate)
    ["cooperate", "defect", "cooperate"] initial_session

/-- A completed session state, as left by a finished 3-round session. -/
def doneState : SessionState :=
  { round := 3,
    rounds_data :=
      [{ round := 1, player_decision := cooperate, opponent_decision := cooperate,
         player_score := 3, opponent_score := 3 },
       { round := 2, player_decision := defect, opponent_decision := cooperate,
         player_score := 5, opponent_score := 0 },
       { round := 3, player_decision := cooperate, opponent_decision := defect,
         player_score := 0, opponent_score := 5 }],
    completed := true, persist_count := 1 }

/-- The invariant tying the persistence count to the completion flag: the
result is persisted exactly once, at the completion transition. -/
def PersistInv (st : SessionState) : Prop :=
  st.persist_count = if st.completed then 1 else 0

/-- The match result of a 2-turn always-defect llm against
AlwaysCooperate. -/
def witness_result : MatchResult :=
  { llmScore := 10, stratScore := 0,
    history := [(defect, cooperate), (defect, cooperate)],
    strategy := "AlwaysCooperate", turns := 2 }

/-! ### Helper lemmas -/

/-- Round-tripping a decision through its string form parses back. -/
theorem parse_str (d : Decision) : parseDecision d.str = some d := by
  cases d <;> rfl

/-- Each loop iteration appends exactly one pair to the history. -/
theorem runRounds_length (pol : List (Decision × Decision) → Decision)
    (strat : List Decision → Decision) (n : Nat) :
    (runRounds pol strat n).1.length = n := by
  induction n with
  | zero => rfl
  | succ k ih =>
    simp only [runRounds, stepRound, List.length_append, List.length_cons,
      List.length_nil, ih]

/-- The accumulated scores of the match loop equal the per-side sums of
the payoffs recomputed over the produced history. -/
theorem runRounds_scores (pol : List (Decision × Decision) → Decision)
    (strat : List Decision → Decision) (n : Nat) :
    (runRounds pol strat n).2.1 =
      ((runRounds pol strat n).1.map (fun h => (payoff h.1 h.2).1)).sum ∧
    (runRounds pol strat n).2.2 =
      ((runRounds pol strat n).1.map (fun h => (payoff h.1 h.2).2)).sum := by
  induction n with
  | zero => exact ⟨rfl, rfl⟩
  | succ k ih =>
    simp only [runRounds, stepRound, List.map_append, List.sum_append,
      List.map_cons, List.map_nil, List.sum_cons, List.sum_nil, ih.1, ih.2]
    constructor <;> ring

/-- A submission preserves the persist-exactly-once invariant. -/
theorem persistInv_submit (total : Nat) (m : PDMatrix)
    (pol : List Decision → Decision) (st : SessionState) (d : String)
    (h : PersistInv st) :
    PersistInv (submit_decision total m pol st d).1 := by
  unfold PersistInv at h ⊢
  unfold submit_decision
  by_cases hc : st.completed
  · simp [hc, h]
  · simp only [hc, if_false, Bool.false_eq_true]
    cases parseDecision d with
    | none => simpa [hc] using h
    | some pd =>
      by_cases hr : st.round = total
      · simp only [hr, if_true]
        simp only [hc, if_false, Bool.false_eq_true] at h
        simp [h]
      · simp only [hr, if_false]
        simpa [hc] using h

/-- Running any decision sequence preserves the persist invariant. -/
theorem persistInv_run (total : Nat) (m : PDMatrix)
    (pol : List Decision → Decision) (ds : List String) (st : SessionState)
    (h : PersistInv st) :
    PersistInv (run_session total m pol ds st) := by
  induction ds generalizing st with
  | nil => exact h
  | cons d ds ih => exact ih _ (persistInv_submit total m pol st d h)

/-- The round record a valid submission constructs from state `st`. -/
def next_record (m : PDMatrix) (pol : List Decision → Decision)
    (st : SessionState) (pd : Decision) : RoundRecord :=
  let od := pol (st.rounds_data.map RoundRecord.player_decision)
  let p := m.lookup pd od
  { round := st.round, player_decision := pd, opponent_decision := od,
    player_score := p.1, opponent_score := p.2 }

/-- The post-state of a valid submission on an in-progress session. -/
def after_submit (total : Nat) (m : PDMatrix)
    (pol : List Decision → Decision) (st : SessionState)
    (pd : Decision) : SessionState :=
  if st.round = total then
    { st with
        rounds_data := st.rounds_data ++ [next_record m pol st pd],
        completed := true,
        persist_count := st.persist_count + 1 }
  else
    { st with
        rounds_data := st.rounds_data ++ [next_record m pol st pd],
        round := st.round + 1 }

/-- On an in-progress session, submitting a valid decision succeeds with
the constructed record and the expected post-state. -/
theorem submit_valid (total : Nat) (m : PDMatrix)
    (pol : List Decision → Decision) (st : SessionState) (pd : Decision)
    (hc : st.completed = false) :
    submit_decision total m pol st pd.str =
      (after_submit total m pol st pd, Except.ok (next_record m pol st pd)) := by
  unfold submit_decision after_submit next_record
  rw [hc]
  simp only [Bool.false_eq_true, if_false, parse_str]
  by_cases hend : st.round = total <;> simp [hend]

/-- Running valid decisions from a consistent in-progress state appends
round records numbered consecutively from the current round counter. -/
theorem run_session_rounds (total : Nat) (m : PDMatrix)
    (pol : List Decision → Decision) (ds : List Decision) (st : SessionState)
    (hc : st.completed = false)
    (hr : st.round = st.rounds_data.length + 1)
    (hl : st.rounds_data.length + ds.length ≤ total) :
    (run_session total m pol (ds.map Decision.str) st).rounds_data.map RoundRecord.round
      = st.rounds_data.map RoundRecord.round ++ List.range' st.round ds.length := by
  induction ds generalizing st with
  | nil => simp [run_session]
  | cons d ds ih =>
    simp only [List.map_cons, run_session]
    rw [submit_valid total m pol st d hc]
    by_cases hend : st.round = total
    · have hds : ds = [] := by
        have h1 : st.rounds_data.length + 1 = total := by omega
        have h2 : st.rounds_data.length + (ds.length + 1) ≤ total := by
          simpa [List.length_cons] using hl
        have h3 : ds.length = 0 := by omega
        exact List.length_eq_zero.mp h3
      subst hds
      simp only [List.map_nil, run_session, after_submit, hend, if_true]
      simp only [List.map_append, List.map_cons, List.map_nil, List.length_cons,
        List.length_nil]
      simp [next_record, List.range', hend]
    · simp only [after_submit, hend, if_false]
      rw [ih]
      · simp only [List.map_append, List.map_cons, List.map_nil,
          List.append_assoc, List.length_cons]
        rw [List.range'_succ]
        simp [next_record]
      · simpa using hc
      · simp [List.length_append, hr]
      · simp only [List.length_append, List.length_cons, List.length_nil]
        simp only [List.length_cons] at hl
        omega

/-! ### Claim theorems -/

/-- C1: For every pair of decisions (participant, opponent) drawn from
{cooperate, defect}, the per-round payoff computed by the game equals the
literal configured matrix — CC→(3,3), CD→(0,5), DC→(5,0), DD→(1,1) — and a
loop iteration of `play_match` is the pure step whose only effect is to
append the decision pair and add exactly those scores. -/
theorem payoff_matrix_exact :
    payoff cooperate cooperate = (3, 3) ∧
    payoff cooperate defect = (0, 5) ∧
    payoff defect cooperate = (5, 0) ∧
    payoff defect defect = (1, 1) ∧
    (∀ pol strat (h : List (Decision × Decision)) (a b : Int),
      stepRound pol strat (h, a, b) =
        (h ++ [(pol h, strat (h.map Prod.fst))],
         a + (payoff (pol h) (strat (h.map Prod.fst))).1,
         b + (payoff (pol h) (strat (h.map Prod.fst))).2)) :=
  ⟨rfl, rfl, rfl, rfl, fun _ _ _ _ _ => rfl⟩

/-- C2: TitForTat returns the configured `opponent_initial` (hardcoded to
`cooperate` in `pd_game.py`) on an empty history and otherwise the
participant's immediately preceding decision; the `pd_game.py` variant
coincides with the spec-modelled policy at `opponent_initial = cooperate`,
and by construction both read only the participant's own move sequence. -/
theorem titfortat_behavior :
    (∀ init, tit_for_tat init [] = init) ∧
    tit_for_tat cooperate [] = cooperate ∧
    (∀ init (h : List Decision) (d : Decision), tit_for_tat init (h ++ [d]) = d) ∧
    (∀ h : List Decision, titForTatMove h = tit_for_tat cooperate h) := by
  refine ⟨fun _ => rfl, rfl, ?_, fun _ => rfl⟩
  intro init h d
  simp [tit_for_tat, List.getLast?_concat]

/-- C3: In the 3-round scenario against TitForTat with initial cooperate
and participant decisions [cooperate, defect, cooperate], the opponent
plays cooperate, cooperate, defect, the per-round scores are (3,3), (5,0),
(0,5), the session completes after round 3, and both aggregates are 8 —
both in the spec-modelled session machine and in `play_match`. -/
theorem three_round_scenario :
    scenario_run.rounds_data =
      [{ round := 1, player_decision := cooperate, opponent_decision := cooperate,
         player_score := 3, opponent_score := 3 },
       { round := 2, player_decision := defect, opponent_decision := cooperate,
         player_score := 5, opponent_score := 0 },
       { round := 3, player_decision := cooperate, opponent_decision := defect,
         player_score := 0, opponent_score := 5 }] ∧
    scenario_run.completed = true ∧
    player_total scenario_run = 8 ∧
    opponent_total scenario_run = 8 ∧
    play_match scripted_policy "TitForTat" 3 =
      Except.ok { llmScore := 8, stratScore := 8,
                  history := [(cooperate, cooperate), (defect, cooperate),
                              (cooperate, defect)],
                  strategy := "TitForTat", turns := 3 } :=
  ⟨by decide, by decide, by decide, by decide, rfl⟩

/-- C4: Once a session is complete, any further `submit_decision` fails
with `SessionAlreadyComplete` and leaves the state — history, counters and
persistence count — untouched; moreover along every run from a fresh
session the result is persisted exactly once, at the completion
transition, and never again. -/
theorem completed_session_rejects :
    (∀ (total : Nat) (m : PDMatrix) (pol : List Decision → Decision)
       (st : SessionState) (d : String), st.completed = true →
       submit_decision total m pol st d =
         (st, Except.error PDError.SessionAlreadyComplete)) ∧
    (∀ (total : Nat) (m : PDMatrix) (pol : List Decision → Decision)
       (ds : List String),
       (run_session total m pol ds initial_session).persist_count =
         if (run_session total m pol ds initial_session).completed then 1 else 0) := by
  constructor
  · intro total m pol st d h
    unfold submit_decision
    rw [h]
    simp
  · intro total m pol ds
    exact persistInv_run total m pol ds initial_session rfl

/-- Witness for C4: a fourth submission on the completed 3-round session
is rejected without any state change. -/
theorem completed_session_rejects_witness :
    submit_decision 3 default_matrix (tit_for_tat cooperate) doneState "cooperate" =
      (doneState, Except.error PDError.SessionAlreadyComplete) :=
  completed_session_rejects.1 3 default_matrix (tit_for_tat cooperate)
    doneState "cooperate" rfl

/-- C5: Submitting a decision outside {cooperate, defect} to an
in-progress session fails with `InvalidDecision` and mutates neither the
round counter nor the round history. -/
theorem invalid_decision_rejected (total : Nat) (m : PDMatrix)
    (pol : List Decision → Decision) (st : SessionState) (d : String)
    (hc : st.completed = false) (hd : parseDecision d = none) :
    submit_decision total m pol st d = (st, Except.error PDError.InvalidDecision) := by
  unfold submit_decision
  rw [hc, hd]
  simp

/-- Witness for C5: the decision string "maybe" is rejected on a fresh
session, which stays unchanged. -/
theorem invalid_decision_rejected_witness :
    submit_decision 3 default_matrix (tit_for_tat cooperate) initial_session "maybe" =
      (initial_session, Except.error PDError.InvalidDecision) :=
  invalid_decision_rejected 3 default_matrix (tit_for_tat cooperate)
    initial_session "maybe" rfl (by decide)

/-- C6: An unregistered strategy identifier makes both the match and the
session start fail up front — before any round, so no history and no
scores exist — while every registered identifier starts without error. -/
theorem unknown_strategy_at_start (pol : List (Decision × Decision) → Decision)
    (name : String) (turns : Int) :
    (lookupStrategy name = none →
      play_match pol name turns =
        Except.error "Error creating strategy: Strategy not found" ∧
      start_session name = Except.error PDError.UnknownStrategy) ∧
    (∀ f, lookupStrategy name = some f →
      play_match pol name turns =
        Except.ok { llmScore := (runRounds pol f turns.toNat).2.1,
                    stratScore := (runRounds pol f turns.toNat).2.2,
                    history := (runRounds pol f turns.toNat).1,
                    strategy := name, turns := turns } ∧
      start_session name = Except.ok initial_session) := by
  constructor
  · intro h
    constructor
    · unfold play_match
      rw [h]
    · unfold start_session
      rw [h]
  · intro f h
    constructor
    · unfold play_match
      rw [h]
    · unfold start_session
      rw [h]

/-- Witness for C6: the identifier "Random" is unregistered and rejected
at start; "TitForTat" is registered and the match runs. -/
theorem unknown_strategy_at_start_witness :
    (play_match (fun _ => cooperate) "Random" 5 =
       Except.error "Error creating strategy: Strategy not found" ∧
     start_session "Random" = Except.error PDError.UnknownStrategy) ∧
    start_session "TitForTat" = Except.ok initial_session :=
  ⟨(unknown_strategy_at_start (fun _ => cooperate) "Random" 5).1 rfl,
   ((unknown_strategy_at_start (fun _ => cooperate) "TitForTat" 5).2
      titForTatMove rfl).2⟩

/-- C7: After N successful submissions on an N-round configuration the
round history has length exactly N and its round numbers are the strictly
increasing integers 1, ..., N; likewise the `play_match` loop produces one
history entry per turn. -/
theorem history_length_and_round_numbers (N : Nat) (m : PDMatrix)
    (pol : List Decision → Decision) (ds : List Decision)
    (hlen : ds.length = N) :
    (run_session N m pol (ds.map Decision.str) initial_session).rounds_data.length
      = N ∧
    (run_session N m pol (ds.map Decision.str) initial_session).rounds_data.map
        RoundRecord.round = List.range' 1 N ∧
    (∀ pol2 strat (n : Nat), (runRounds pol2 strat n).1.length = n) := by
  have hmap := run_session_rounds N m pol ds initial_session rfl rfl
    (by simp [initial_session, hlen])
  rw [show initial_session.rounds_data.map RoundRecord.round = [] from rfl,
    show initial_session.round = 1 from rfl, List.nil_append] at hmap
  refine ⟨?_, ?_, fun pol2 strat n => runRounds_length pol2 strat n⟩
  · have hlg := congrArg List.length hmap
    simpa [List.length_map, List.length_range', hlen] using hlg
  · rw [hmap, hlen]

/-- Witness for C7: two submissions on a 2-round session leave history
[1, 2]. -/
theorem history_length_and_round_numbers_witness :
    (run_session 2 default_matrix (tit_for_tat cooperate)
        ([cooperate, defect].map Decision.str) initial_session).rounds_data.length
      = 2 ∧
    (run_session 2 default_matrix (tit_for_tat cooperate)
        ([cooperate, defect].map Decision.str) initial_session).rounds_data.map
        RoundRecord.round = List.range' 1 2 ∧
    (∀ pol2 strat (n : Nat), (runRounds pol2 strat n).1.length = n) :=
  history_length_and_round_numbers 2 default_matrix (tit_for_tat cooperate)
    [cooperate, defect] rfl

/-- C8: The incrementally accumulated scores returned by `play_match`
coincide, per side, with recomputing the payoff matrix over the returned
history and summing. -/
theorem scores_equal_recomputed_sum (pol : List (Decision × Decision) → Decision)
    (name : String) (turns : Int) (r : MatchResult)
    (h : play_match pol name turns = Except.ok r) :
    r.llmScore = (r.history.map (fun p => (payoff p.1 p.2).1)).sum ∧
    r.stratScore = (r.history.map (fun p => (payoff p.1 p.2).2)).sum := by
  unfold play_match at h
  cases hf : lookupStrategy name with
  | none =>
    rw [hf] at h
    exact absurd h (by simp)
  | some f =>
    rw [hf] at h
    simp only [Except.ok.injEq] at h
    subst h
    exact ⟨(runRounds_scores pol f turns.toNat).1,
           (runRounds_scores pol f turns.toNat).2⟩

/-- Witness for C8: an always-defect llm against AlwaysCooperate for two
turns scores 10 against 0, equal to the history sums. -/
theorem scores_equal_recomputed_sum_witness :
    witness_result.llmScore =
      (witness_result.history.map (fun p => (payoff p.1 p.2).1)).sum ∧
    witness_result.stratScore =
      (witness_result.history.map (fun p => (payoff p.1 p.2).2)).sum :=
  scores_equal_recomputed_sum (fun _ => defect) "AlwaysCooperate" 2
    witness_result rfl

/-- C9: Whatever the model responds — any text, any casing or surrounding
whitespace, or an API error — `get_llm_move` returns a member of
{cooperate, defect}; it returns cooperate on error and whenever the
normalized response is not one of the two valid decisions, and the
normalized response itself when it is valid. -/
theorem llm_move_total_safe (resp : Except String String) :
    (get_llm_move resp = "cooperate" ∨ get_llm_move resp = "defect") ∧
    (∀ e, get_llm_move (Except.error e) = "cooperate") ∧
    (∀ s, strip_lower s ∉ ["cooperate", "defect"] →
      get_llm_move (Except.ok s) = "cooperate") ∧
    (∀ s, strip_lower s ∈ ["cooperate", "defect"] →
      get_llm_move (Except.ok s) = strip_lower s) := by
  refine ⟨?_, fun e => rfl, fun s hs => by simp [get_llm_move, hs],
    fun s hs => by simp [get_llm_move, hs]⟩
  cases resp with
  | error e => exact Or.inl rfl
  | ok s =>
    by_cases hm : strip_lower s ∈ ["cooperate", "defect"]
    · have hv : get_llm_move (Except.ok s) = strip_lower s := by
        simp [get_llm_move, hm]
      simp only [List.mem_cons, List.mem_singleton, List.not_mem_nil,
        or_false] at hm
      cases hm with
      | inl h => exact Or.inl (hv.trans h)
      | inr h => exact Or.inr (hv.trans h)
    · exact Or.inl (by simp [get_llm_move, hm])

/-- Witness for C9: the response text " MAYBE " normalizes to an invalid
decision and yields cooperate. -/
theorem llm_move_total_safe_witness :
    get_llm_move (Except.ok " MAYBE ") = "cooperate" :=
  (llm_move_total_safe (Except.ok " MAYBE ")).2.2.1 " MAYBE " (by decide)

/-- C10: With a non-positive turn count and any registered strategy,
`play_match` succeeds and returns an empty history with zero scores on
both sides. -/
theorem nonpositive_turns_empty (pol : List (Decision × Decision) → Decision)
    (name : String) (f : List Decision → Decision) (turns : Int)
    (h1 : turns ≤ 0) (h2 : lookupStrategy name = some f) :
    play_match pol name turns =
      Except.ok { llmScore := 0, stratScore := 0, history := [],
                  strategy := name, turns := turns } := by
  unfold play_match
  rw [h2, Int.toNat_of_nonpos h1]
  rfl

/-- Witness for C10: a match of -1 turns against TitForTat returns empty
history and zero scores. -/
theorem nonpositive_turns_empty_witness :
    play_match (fun _ => cooperate) "TitForTat" (-1) =
      Except.ok { llmScore := 0, stratScore := 0, history := [],
                  strategy := "TitForTat", turns := -1 } :=
  nonpositive_turns_empty (fun _ => cooperate) "TitForTat" titForTatMove (-1)
    (by decide) rfl
